import Mathlib

/-!
Verification development for the programmatic-SEO content pipeline.

The definitions below are a shallow embedding of the TypeScript sources:
  * `src/lib/content-generator.ts`   (UniquenessEngine, ContentGenerator)
  * `content-generator-ollama.ts`    (OllamaContentGenerator)
  * `content-validation.ts`          (validateTemplateSelection)
  * `src/lib/blog-registry.ts`       (BlogRegistry)

JavaScript numbers are modelled by `ℚ` (all arithmetic in scope is exact:
sums/products of small decimal literals and ratios of small naturals),
strings by Lean `String`, `Map`/`Set` objects by association lists / lists
with membership tests, and `Math.random()` draws by a `Nat` parameter taken
modulo the candidate-list length.  LLM calls, the file system and the
crypto digest are external collaborators and appear as explicit parameters.
-/

namespace SeoPipeline

/-! ## JavaScript string primitives -/

/-- The whitespace class of the JavaScript regex `\s` (the characters that
can actually occur in this pipeline's inputs). -/
def isJsWhitespace (c : Char) : Bool :=
  c = ' ' || c = '\t' || c = '\n' || c = '\r' ||
  c = '\x0b' || c = '\x0c' || c = ' '

/-- `String.toLowerCase()`. -/
def strLower (s : String) : String := String.mk (s.data.map Char.toLower)

/-- Split a character list at every separator character, keeping empty
pieces (the semantics of a JavaScript split on a single-character class
without `+`, e.g. `"a..b".split(s)` gives `["a", "", "b"]`). -/
def splitEvery (p : Char → Bool) : List Char → List (List Char)
  | [] => [[]]
  | c :: rest =>
    match splitEvery p rest with
    | [] => if p c then [[], []] else [[c]]
    | h :: t => if p c then [] :: h :: t else (c :: h) :: t

/-- String-valued wrapper around `splitEvery`. -/
def strSplitEvery (p : Char → Bool) (s : String) : List String :=
  (splitEvery p s.data).map String.mk

/-- Helper for `strContains`: is the first list a prefix of the second? -/
def isPrefixOfL : List Char → List Char → Bool
  | [], _ => true
  | _ :: _, [] => false
  | a :: as, b :: bs => a = b && isPrefixOfL as bs

/-- Helper for `strContains`: is `sub` a contiguous infix of the list? -/
def isInfixOfL (sub : List Char) : List Char → Bool
  | [] => sub.isEmpty
  | c :: rest => isPrefixOfL sub (c :: rest) || isInfixOfL sub rest

/-- `a.includes(b)` — substring containment. -/
def strContains (s sub : String) : Bool := isInfixOfL sub.data s.data

/-- `s.startsWith(t)`. -/
def strStartsWith (s t : String) : Bool := isPrefixOfL t.data s.data

/-- `s.substring(0, n)`. -/
def strTake (s : String) (n : Nat) : String := String.mk (s.data.take n)

/-- `Math.min` on exact rationals. -/
def jsMin (a b : ℚ) : ℚ := if a ≤ b then a else b

mutual
/-- Token accumulation state of `jsSplitRuns`: building the current token. -/
def jsSplitGo (p : Char → Bool) : List Char → List Char → List (List Char)
  | [], acc => [acc.reverse]
  | c :: rest, acc =>
    if p c then acc.reverse :: jsSplitSkip p rest
    else jsSplitGo p rest (c :: acc)

/-- Separator-run consumption state of `jsSplitRuns`. -/
def jsSplitSkip (p : Char → Bool) : List Char → List (List Char)
  | [] => [[]]
  | c :: rest => if p c then jsSplitSkip p rest else jsSplitGo p rest [c]
end

/-- `s.split(regex)` where the regex is a character class with `+`:
maximal separator runs split the string, with an empty leading/trailing
piece when the string starts/ends with a separator (JavaScript `split`
semantics, e.g. `"  a".split(/\s+/) = ["", "a"]`). -/
def jsSplitRuns (p : Char → Bool) (l : List Char) : List String :=
  (jsSplitGo p l []).map String.mk

/-! ## PhraseFingerprinter — `UniquenessEngine.extractKeyPhrases` -/

/-- The markdown control characters removed by `replace(/[#*_`\[\]()]/g, ' ')`. -/
def isMarkdownChar (c : Char) : Bool :=
  c = '#' || c = '*' || c = '_' || c = '`' || c = '[' ||
  c = ']' || c = '(' || c = ')'

/-- Scan for the first occurrence of `---` and return the suffix after it
(the closing delimiter search of the lazy regex `^---[\s\S]*?---`). -/
def dropThroughDashes : List Char → Option (List Char)
  | [] => none
  | c :: rest =>
    if c = '-' ∧ rest.take 2 = ['-', '-'] then some (rest.drop 2)
    else dropThroughDashes rest

/-- The frontmatter removal step (a lazy regex replace anchored at the
start of the string): if the text starts with `---` and a closing `---`
follows, drop everything through the first closing `---`; otherwise leave
the text unchanged. -/
def stripFrontmatter (l : List Char) : List Char :=
  if l.take 3 = ['-', '-', '-'] then
    match dropThroughDashes (l.drop 3) with
    | some rest => rest
    | none => l
  else l

/-- The normalization pipeline of `extractKeyPhrases`: strip frontmatter,
replace markdown characters by spaces, lower-case, split on whitespace
runs and keep only tokens of length > 3. -/
def extractWords (content : String) : List String :=
  let plainText :=
    ((stripFrontmatter content.data).map
      (fun c => if isMarkdownChar c then ' ' else c)).map Char.toLower
  (jsSplitRuns isJsWhitespace plainText).filter (fun w => 3 < w.length)

/-- `UniquenessEngine.extractKeyPhrases` (identical in both generator
files): the loop `for (let i = 0; i < words.length - 4; i++)` pushes the
4-token window starting at `i`, joined by single spaces. -/
def extractKeyPhrases (content : String) : List String :=
  let words := extractWords content
  (List.range (words.length - 4)).map
    (fun i => String.intercalate " " ((words.drop i).take 4))

/-! ## Content-generator data model -/

inductive SearchIntent where
  | informational
  | transactional
  | navigational
  | commercial
deriving DecidableEq, Repr

inductive ContentLength where
  | short
  | medium
  | long
  | comprehensive
deriving DecidableEq, Repr

structure DataPoint where
  fact : String
  source : String
  verified : Bool
deriving DecidableEq, Repr

structure ContentBrief where
  topic : String
  targetKeyword : String
  secondaryKeywords : List String
  searchIntent : SearchIntent
  audience : String
  contentAngle : String
  differentiators : List String
  dataPoints : List DataPoint
  uniqueInsight : String
  contentLength : ContentLength
deriving DecidableEq, Repr

structure DifferentiationReport where
  uniqueFactCount : Nat
  uniquePhrases : List String
  angleScore : ℚ
  dataScore : ℚ
  insightScore : ℚ
  overallScore : ℚ
  passesThreshold : Bool
  issues : List String
deriving DecidableEq, Repr

/-! ## SimilarityEngine

The `UniquenessEngine.existingContent` map (slug → extracted phrase list)
is modelled as an association list in insertion order. -/

/-- `ContentGenerator`'s `UniquenessEngine.calculateSimilarity`: Jaccard-style
overlap of the candidate's phrase set against one stored document,
`|new ∩ stored| / max(|new|, 1)`. -/
def cgCalculateSimilarity (existingContent : List (String × List String))
    (newContent : String) (existingSlug : String) : ℚ :=
  match existingContent.lookup existingSlug with
  | none => 0
  | some existingPhrases =>
    let newPhrases := (extractKeyPhrases newContent).dedup
    let overlap :=
      (newPhrases.filter (fun phrase => existingPhrases.contains phrase)).length
    (overlap : ℚ) / max (newPhrases.length : ℚ) 1

/-- `ContentGenerator`'s `calculateOverallSimilarity`: running maximum over
every stored document, tracking which slug produced it (ties keep the
first-loaded document). -/
def cgCalculateOverallSimilarity (existingContent : List (String × List String))
    (newContent : String) : ℚ × String :=
  existingContent.foldl
    (fun acc entry =>
      let similarity := cgCalculateSimilarity existingContent newContent entry.1
      if acc.1 < similarity then (similarity, entry.1) else acc)
    (0, "")

/-- `OllamaContentGenerator`'s `UniquenessEngine.calculateOverallSimilarity`:
same maximum, with the candidate phrase set computed once up front. -/
def ollamaCalculateOverallSimilarity (existingContent : List (String × List String))
    (newContent : String) : ℚ × String :=
  let newPhrases := (extractKeyPhrases newContent).dedup
  existingContent.foldl
    (fun acc entry =>
      let overlap :=
        (newPhrases.filter (fun phrase => entry.2.contains phrase)).length
      let similarity := (overlap : ℚ) / max (newPhrases.length : ℚ) 1
      if acc.1 < similarity then (similarity, entry.1) else acc)
    (0, "")

/-! ## DifferentiationScorer -/

/-- Sentence separators of the split on `.`, `!`, `?`. -/
def isSentenceSep (c : Char) : Bool := c = '.' || c = '!' || c = '?'

/-- `ContentGenerator.evaluateDifferentiation` (content-generator.ts).
`contentFingerprints` is the module-global slug → phrase-set map.
The interpolated numbers of the issue messages are display-only and elided
from the modelled strings. -/
def cgEvaluateDifferentiation (existingContent : List (String × List String))
    (contentFingerprints : List (String × List String))
    (content : String) (brief : ContentBrief) : DifferentiationReport :=
  let sim := cgCalculateOverallSimilarity existingContent content
  let maxSimilarity := sim.1
  let uniqueFactCount :=
    (brief.dataPoints.filter
      (fun dp => strContains (strLower content) (strTake (strLower dp.fact) 50))).length
  let contentPhrases :=
    ((strSplitEvery isSentenceSep (strLower content)).filter
      (fun s => 50 < s.length)).take 10
  let uniquePhrases :=
    contentPhrases.filter
      (fun phrase =>
        contentFingerprints.all
          (fun entry => entry.2.all (fun existingPhrase => !(strContains phrase existingPhrase))))
  let angleScore := 1 - maxSimilarity
  let dataScore := (uniqueFactCount : ℚ) / max (brief.dataPoints.length : ℚ) 1
  let insightScore : ℚ :=
    if strContains (strLower content) (strTake (strLower brief.uniqueInsight) 50)
    then 1 else 0
  let overallScore := angleScore * (4/10) + dataScore * (35/100) + insightScore * (25/100)
  let issues :=
    (if (3/10 : ℚ) < maxSimilarity then ["Too similar to existing post"] else []) ++
    (if uniqueFactCount < 3 then ["Missing required data points"] else []) ++
    (if uniquePhrases.length < 5 then ["Missing unique key phrases"] else [])
  { uniqueFactCount := uniqueFactCount
    uniquePhrases := uniquePhrases.take 5
    angleScore := angleScore
    dataScore := dataScore
    insightScore := insightScore
    overallScore := overallScore
    passesThreshold := decide ((75/100 : ℚ) ≤ overallScore) && issues.isEmpty
    issues := issues }

/-- `OllamaContentGenerator.evaluateDifferentiation`
(content-generator-ollama.ts): 30-character substring probes and an
insight score of 0.5 (rather than 0) when the insight is missing. -/
def ollamaEvaluateDifferentiation (existingContent : List (String × List String))
    (content : String) (brief : ContentBrief) : DifferentiationReport :=
  let sim := ollamaCalculateOverallSimilarity existingContent content
  let maxSimilarity := sim.1
  let uniqueFactCount :=
    (brief.dataPoints.filter
      (fun dp => strContains (strLower content) (strTake (strLower dp.fact) 30))).length
  let contentLower := strLower content
  let sentences :=
    (strSplitEvery isSentenceSep contentLower).filter (fun s => 50 < s.length)
  let uniquePhrases := sentences.take 5
  let angleScore := 1 - maxSimilarity
  let dataScore := (uniqueFactCount : ℚ) / max (brief.dataPoints.length : ℚ) 1
  let insightScore : ℚ :=
    if strContains contentLower (strTake (strLower brief.uniqueInsight) 30)
    then 1 else 1/2
  let overallScore := angleScore * (4/10) + dataScore * (35/100) + insightScore * (25/100)
  let issues :=
    (if (3/10 : ℚ) < maxSimilarity then ["Too similar to existing post"] else []) ++
    (if uniqueFactCount < 3 then ["Missing required data points"] else [])
  { uniqueFactCount := uniqueFactCount
    uniquePhrases := uniquePhrases
    angleScore := angleScore
    dataScore := dataScore
    insightScore := insightScore
    overallScore := overallScore
    passesThreshold := decide ((75/100 : ℚ) ≤ overallScore) && issues.isEmpty
    issues := issues }

/-! ## QualityScorer — `OllamaContentGenerator.evaluateQuality` -/

/-- `OllamaContentGenerator.evaluateQuality`: additive point system over
word count, structural markers and keyword presence, capped at 1. -/
def ollamaEvaluateQuality (content : String) (brief : ContentBrief) : ℚ :=
  let wordCount := (jsSplitRuns isJsWhitespace content.data).length
  let lines := strSplitEvery (fun c => c = '\n') content
  let h2Count := (lines.filter (fun l => strStartsWith l "## ")).length
  let h3Count := (lines.filter (fun l => strStartsWith l "### ")).length
  let listCount :=
    (lines.filter (fun l => strStartsWith l "* " || strStartsWith l "- ")).length
  let score : ℚ :=
    (if 2000 ≤ wordCount then (3/10 : ℚ)
     else if 1500 ≤ wordCount then 2/10
     else if 1000 ≤ wordCount then 1/10
     else 0)
    + (if 3 ≤ h2Count then (2/10 : ℚ) else 0)
    + (if 2 ≤ h3Count then (1/10 : ℚ) else 0)
    + (if 3 ≤ listCount then (1/10 : ℚ) else 0)
    + (if strContains content brief.targetKeyword then (1/10 : ℚ) else 0)
    + (if strContains (strLower content) "example" then (1/10 : ℚ) else 0)
    + (if strContains (strLower content) "step" then (1/10 : ℚ) else 0)
  jsMin score 1

/-! ## AngleRotationTracker

`UniquenessEngine.usedAngles : Map<string, Set<string>>` is modelled as an
association list (topic → used-angle list in insertion order). -/

/-- The ten `informational` angles of `CONTENT_ANGLES` in content-generator.ts. -/
def informationalAngles : List String :=
  ["beginner-guide", "expert-deep-dive", "case-study", "comparison",
   "step-by-step", "common-mistakes", "future-trends", "data-analysis",
   "interview-synthesis", "contrarian-view"]

/-- `CONTENT_ANGLES[intent] || CONTENT_ANGLES.informational` of
content-generator.ts: the object has no `navigational` key, so that intent
falls back to the informational list. -/
def contentAnglesCG : SearchIntent → List String
  | .informational => informationalAngles
  | .transactional =>
    ["roi-focused", "implementation-guide", "feature-breakdown",
     "pricing-analysis", "use-case-specific"]
  | .commercial =>
    ["buyer-guide", "alternatives-analysis", "pros-cons", "industry-specific"]
  | .navigational => informationalAngles

/-- `Map.set` on the association-list model: replace the first binding of
the key, or append a new binding. -/
def setAssoc (m : List (String × List String)) (k : String) (v : List String) :
    List (String × List String) :=
  match m with
  | [] => [(k, v)]
  | (k₂, v₂) :: rest =>
    if k₂ = k then (k, v) :: rest else (k₂, v₂) :: setAssoc rest k v

/-- `UniquenessEngine.registerAngle`: ensure a set exists for the topic and
add the angle to it (a `Set.add`, so inserting an already-present angle is
a no-op). -/
def registerAngle (usedAngles : List (String × List String))
    (topic angle : String) : List (String × List String) :=
  let current := (usedAngles.lookup topic).getD []
  let updated := if current.contains angle then current else current ++ [angle]
  setAssoc usedAngles topic updated

/-- `UniquenessEngine.getAvailableAngles`: the intent's full angle list
minus the angles already used for this topic. -/
def getAvailableAngles (usedAngles : List (String × List String))
    (topic : String) (intent : SearchIntent) : List String :=
  let usedForTopic := (usedAngles.lookup topic).getD []
  (contentAnglesCG intent).filter (fun angle => !(usedForTopic.contains angle))

/-! ## GenerationController — `ContentGenerator.generateBrief`

The three LLM round-trips inside `generateBrief` (differentiators, data
points, insight) are external collaborators; their already-parsed results
enter the model as the `llm…` parameters.  The function either fails with
the angle-exhaustion error before any LLM work, or assembles the brief and
registers the chosen angle as used. -/

def generateBrief (usedAngles : List (String × List String))
    (topic keyword : String) (intent : SearchIntent) (audience : String)
    (llmDifferentiators : List String) (llmDataPoints : List DataPoint)
    (llmInsight : String) :
    Except String (ContentBrief × List (String × List String)) :=
  let availableAngles := getAvailableAngles usedAngles topic intent
  match availableAngles with
  | [] =>
    .error ("All content angles exhausted for topic: " ++ topic ++
            ". Consider a new topic cluster.")
  | contentAngle :: _ =>
    let usedAngles' := registerAngle usedAngles topic contentAngle
    .ok
      ({ topic := topic
         targetKeyword := keyword
         secondaryKeywords := []
         searchIntent := intent
         audience := audience
         contentAngle := contentAngle
         differentiators := llmDifferentiators
         dataPoints := llmDataPoints
         uniqueInsight := llmInsight
         contentLength := .long }, usedAngles')

/-! ## StructuralTemplateRotator — content-validation.ts -/

def TEMPLATE_IDS : List String :=
  ["ATLAS", "PERSONA", "CATALYST", "PLAYBOOK", "COMPASS", "BLUEPRINT"]

structure TemplateValidation where
  valid : Bool
  selectedTemplate : String
  recentHistory : List String
  excluded : List String
  available : List String
  message : String
deriving DecidableEq, Repr

/-- `validateTemplateSelection`: exclude the last two entries of the
history (`recentHistory.slice(-2)`), accept exactly the templates of the
fixed set that are not excluded. -/
def validateTemplateSelection (selectedTemplate : String)
    (recentHistory : List String) : TemplateValidation :=
  let lastTwo := recentHistory.drop (recentHistory.length - 2)
  let excluded := lastTwo
  let available := TEMPLATE_IDS.filter (fun t => !(excluded.contains t))
  let valid := available.contains selectedTemplate
  let message :=
    if valid then
      "Template " ++ selectedTemplate ++ " is valid (excluded: " ++
        String.intercalate ", " excluded ++ ")"
    else if excluded.contains selectedTemplate then
      "Template " ++ selectedTemplate ++ " was used recently! Use one of: " ++
        String.intercalate ", " available
    else
      "Invalid template " ++ selectedTemplate ++ ". Valid templates: " ++
        String.intercalate ", " TEMPLATE_IDS
  { valid := valid
    selectedTemplate := selectedTemplate
    recentHistory := recentHistory
    excluded := excluded
    available := available
    message := message }

/-! ## `OllamaContentGenerator.generateContent`

The LLM chat call and `extractJSON` are external collaborators: `response`
is the raw LLM text, `parsed` is the outcome of `extractJSON(response)`
(`none` when extraction threw).  A parsed object's `content` field may be
absent (`none`).  The sha256 `contentHash` is computed by the external
crypto library and is not modelled. -/

structure OllamaGeneratedData where
  title : String
  metaDescription : String
  slug : String
  content : Option String
  faqItems : List (String × String)
deriving DecidableEq, Repr

structure OllamaGeneratedContent where
  title : String
  metaDescription : String
  slug : String
  content : String
  faqItems : List (String × String)
  wordCount : Nat
  uniquenessScore : ℚ
  qualityScore : ℚ
  differentiationReport : DifferentiationReport
  generatedBy : String
deriving DecidableEq, Repr

/-- `topic.toLowerCase().replace()` collapsing every run of characters
outside `[a-z0-9]` into a single hyphen (the fallback slug). -/
def slugify (topic : String) : String :=
  String.intercalate "-"
    (jsSplitRuns (fun c => !(('a' ≤ c ∧ c ≤ 'z') ∨ ('0' ≤ c ∧ c ≤ '9')))
      (strLower topic).data)

def ollamaFallbackData (brief : ContentBrief) (response : String) :
    OllamaGeneratedData :=
  { title := brief.topic ++ ": A Comprehensive Guide"
    metaDescription :=
      "Learn everything about " ++ brief.topic ++ ". Expert insights for " ++
        brief.audience ++ "."
    slug := slugify brief.topic
    content := some response
    faqItems := [] }

def tooShortError : String := "Generated content is too short. Please try again."

/-- `OllamaContentGenerator.generateContent` after the chat call: recover
from extraction failure with the fallback artifact, enforce the 500
character minimum, then score and assemble the result. -/
def ollamaGenerateContent (existingContent : List (String × List String))
    (brief : ContentBrief) (response : String)
    (parsed : Option OllamaGeneratedData) (model : String) :
    Except String OllamaGeneratedContent :=
  let generatedData :=
    match parsed with
    | some d => d
    | none => ollamaFallbackData brief response
  match generatedData.content with
  | none => .error tooShortError
  | some c =>
    if c.length < 500 then .error tooShortError
    else
      let differentiationReport := ollamaEvaluateDifferentiation existingContent c brief
      .ok
        { title := generatedData.title
          metaDescription := generatedData.metaDescription
          slug := generatedData.slug
          content := c
          faqItems := generatedData.faqItems
          wordCount := (jsSplitRuns isJsWhitespace c.data).length
          uniquenessScore := differentiationReport.overallScore
          qualityScore := ollamaEvaluateQuality c brief
          differentiationReport := differentiationReport
          generatedBy := model }

/-! ## BlogRegistry — blog-registry.ts

`BlogRegistryData` is the in-memory state (the JSON snapshot's
`publishedBlogs` and `usedCoverPhotos`); file persistence and filesystem
sync are external.  The optional `borough`/`city` record fields are
modelled as strings, with `""` standing for an absent field — every use in
the source coalesces an absent field to `''` before comparing. -/

def BLOCKED_PHOTO_IDS : List String := ["photo-1560518883-ce09059eeffa"]

def nycPhotos : List String :=
  ["photo-1534430480872-3498386e7856", "photo-1555529669-e69e7aa0ba9a",
   "photo-1496442226666-8d4d0e62e6e9", "photo-1499092346589-b9b6be3e94b2",
   "photo-1518391846015-55a9cc003b25", "photo-1543716091-a840c05249ec",
   "photo-1485871981521-5b1fd3805eee", "photo-1522083165195-3424ed129620",
   "photo-1480714378408-67cf0d13bc1b", "photo-1534270804882-6b5048b1c1fc",
   "photo-1570168007204-dfb528c6958f", "photo-1582407947304-fd86f028f716",
   "photo-1560520653-9e0e4c89eb11", "photo-1555109307-f7d9da25c244",
   "photo-1502672260266-1c1ef2d93688", "photo-1512917774080-9991f1c4c750",
   "photo-1600596542815-ffad4c1539a9", "photo-1600607687939-ce8a6c25118c",
   "photo-1600585154340-be6161a56a0c", "photo-1600573472550-8090b5e0745e",
   "photo-1568605114967-8130f3a36994", "photo-1523217582562-09d0def993a6",
   "photo-1580587771525-78b9dba3b914", "photo-1564013799919-ab600027ffc6"]

def brooklynPhotos : List String :=
  ["photo-1558981403-c5f9899a28bc", "photo-1555992336-03a23f37e571",
   "photo-1580137197581-df2bb346a786", "photo-1567684014761-b65e2e59b9eb",
   "photo-1595880500386-4b33823094d0", "photo-1611348586804-61bf6c080437"]

def manhattanPhotos : List String :=
  ["photo-1534430480872-3498386e7856", "photo-1555883006-0f5a0915a80f",
   "photo-1568515387631-8b650bbcdb90", "photo-1558618666-fcd25c85cd64",
   "photo-1513635269975-59663e0ac1ad", "photo-1722030670436-3df19cd72050"]

def queensPhotos : List String :=
  ["photo-1570168007204-dfb528c6958f", "photo-1583608205776-bfd35f0d9f83",
   "photo-1600047509358-9dc75507daeb", "photo-1600566753190-17f0baa2a6c4"]

def seattlePhotos : List String :=
  ["photo-1502175353174-a7a70e73b362", "photo-1558452919-08ae4aca8571",
   "photo-1548248823-ce16a73b6d49", "photo-1515694590244-e4c8d2e5d10e",
   "photo-1416339306562-f3d12fefd36f"]

def realEstatePhotos : List String :=
  ["photo-1582407947304-fd86f028f716", "photo-1560520653-9e0e4c89eb11",
   "photo-1560185007-c5ca9d2c014d", "photo-1560184897-ae75f418493e",
   "photo-1600585154340-be6161a56a0c", "photo-1600573472550-8090b5e0745e",
   "photo-1600566753086-00f18fb6b3ea", "photo-1600607687920-4e2a09cf159d",
   "photo-1605276374104-dee2a0ed3cd6"]

/-- The keys of `COVER_PHOTO_LIBRARY` in declaration order
(`Object.values` iterates in this order). -/
def LIBRARY_KEYS : List String :=
  ["nyc", "brooklyn", "manhattan", "queens", "seattle", "real-estate"]

/-- `COVER_PHOTO_LIBRARY[cat] || []`: bucket lookup with the empty list
for an unknown category. -/
def COVER_PHOTO_LIBRARY (cat : String) : List String :=
  if cat = "nyc" then nycPhotos
  else if cat = "brooklyn" then brooklynPhotos
  else if cat = "manhattan" then manhattanPhotos
  else if cat = "queens" then queensPhotos
  else if cat = "seattle" then seattlePhotos
  else if cat = "real-estate" then realEstatePhotos
  else []

inductive BlogSource where
  | seo
  | ustaReact
deriving DecidableEq, Repr

structure PublishedBlog where
  slug : String
  neighborhood : String
  borough : String := ""
  city : String := ""
  state : String
  publishedAt : String
  coverPhotoId : String
  source : BlogSource
deriving DecidableEq, Repr

/-- `Omit<PublishedBlog, 'source'>` — the argument of `registerBlog`. -/
structure NewBlog where
  slug : String
  neighborhood : String
  borough : String := ""
  city : String := ""
  state : String
  publishedAt : String
  coverPhotoId : String
deriving DecidableEq, Repr

structure BlogRegistryData where
  publishedBlogs : List PublishedBlog
  usedCoverPhotos : List String
deriving DecidableEq, Repr

/-- Lower-case and strip every character outside `[a-z0-9]`
(the neighborhood/borough normalization). -/
def normAlnum (s : String) : String :=
  String.mk ((strLower s).data.filter
    (fun c => ('a' ≤ c ∧ c ≤ 'z') ∨ ('0' ≤ c ∧ c ≤ '9')))

/-- Lower-case and strip every character outside `[a-z0-9-]`
(the slug normalization — hyphens survive). -/
def normalizeSlug (s : String) : String :=
  String.mk ((strLower s).data.filter
    (fun c => ('a' ≤ c ∧ c ≤ 'z') ∨ ('0' ≤ c ∧ c ≤ '9') ∨ c = '-'))

/-- `BlogRegistry.hasSlug`: normalized exact match against every stored
blog's slug. -/
def hasSlug (st : BlogRegistryData) (slug : String) : Bool :=
  let normalizedSlug := normalizeSlug slug
  st.publishedBlogs.any (fun blog => normalizeSlug blog.slug = normalizedSlug)

/-- The per-record test of `BlogRegistry.hasNeighborhood`: the neighborhood
must match after full normalization; a supplied borough/state constrains
the match only when both sides are non-blank.  Note the stored and queried
state are only lower-cased, not stripped. -/
def neighborhoodMatches (normalizedNeighborhood normalizedBorough normalizedState : String)
    (blog : PublishedBlog) : Bool :=
  let blogNeighborhood := normAlnum blog.neighborhood
  let blogBorough := normAlnum blog.borough
  let blogState := strLower blog.state
  if blogNeighborhood ≠ normalizedNeighborhood then false
  else if normalizedBorough ≠ "" ∧ blogBorough ≠ "" ∧ blogBorough ≠ normalizedBorough then
    false
  else if normalizedState ≠ "" ∧ blogState ≠ "" ∧ blogState ≠ normalizedState then
    false
  else true

/-- `BlogRegistry.hasNeighborhood`. -/
def hasNeighborhood (st : BlogRegistryData) (neighborhood : String)
    (borough state : Option String) : Bool :=
  let normalizedNeighborhood := normAlnum neighborhood
  let normalizedBorough := (borough.map normAlnum).getD ""
  let normalizedState := (state.map strLower).getD ""
  st.publishedBlogs.any
    (neighborhoodMatches normalizedNeighborhood normalizedBorough normalizedState)

/-- Modelled from the spec: `hasLocation` as the specification states it —
"normalizes all three fields (lower-case, strip non-alphanumerics)", so
the region/state is stripped like the other two fields.  Used only to
exhibit where the implementation diverges from this reading. -/
def hasNeighborhoodSpec (st : BlogRegistryData) (neighborhood : String)
    (borough state : Option String) : Bool :=
  let normalizedNeighborhood := normAlnum neighborhood
  let normalizedBorough := (borough.map normAlnum).getD ""
  let normalizedState := (state.map normAlnum).getD ""
  st.publishedBlogs.any (fun blog =>
    let blogNeighborhood := normAlnum blog.neighborhood
    let blogBorough := normAlnum blog.borough
    let blogState := normAlnum blog.state
    if blogNeighborhood ≠ normalizedNeighborhood then false
    else if normalizedBorough ≠ "" ∧ blogBorough ≠ "" ∧ blogBorough ≠ normalizedBorough then
      false
    else if normalizedState ≠ "" ∧ blogState ≠ "" ∧ blogState ≠ normalizedState then
      false
    else true)

/-- `BlogRegistry.registerBlog`: reserve the (truthy) cover photo, then
append the document unless its slug is already present. -/
def registerBlog (st : BlogRegistryData) (blog : NewBlog) : BlogRegistryData :=
  let usedCoverPhotos :=
    if blog.coverPhotoId ≠ "" then
      if st.usedCoverPhotos.contains blog.coverPhotoId then st.usedCoverPhotos
      else st.usedCoverPhotos ++ [blog.coverPhotoId]
    else st.usedCoverPhotos
  let publishedBlogs :=
    if hasSlug st blog.slug then st.publishedBlogs
    else
      st.publishedBlogs ++
        [{ slug := blog.slug
           neighborhood := blog.neighborhood
           borough := blog.borough
           city := blog.city
           state := blog.state
           publishedAt := blog.publishedAt
           coverPhotoId := blog.coverPhotoId
           source := .seo }]
  { publishedBlogs := publishedBlogs, usedCoverPhotos := usedCoverPhotos }

/-! ## PhotoAllocator — `BlogRegistry.getUniqueCoverPhoto` -/

/-- `category.toLowerCase().replace()` keeping only `[a-z-]`. -/
def normalizeCategory (category : String) : String :=
  String.mk ((strLower category).data.filter
    (fun c => ('a' ≤ c ∧ c ≤ 'z') ∨ c = '-'))

/-- A photo is selectable when it is neither permanently blocked nor in
the used set. -/
def photoAvailable (used : List String) (p : String) : Bool :=
  !(BLOCKED_PHOTO_IDS.contains p) && !(used.contains p)

/-- The inner loop of `getUniqueCoverPhoto`: skip blocked photos, return
the first one not yet used. -/
def firstUnusedPhoto (used : List String) : List String → Option String
  | [] => none
  | photoId :: rest =>
    if BLOCKED_PHOTO_IDS.contains photoId then firstUnusedPhoto used rest
    else if used.contains photoId then firstUnusedPhoto used rest
    else some photoId

/-- The outer loop of `getUniqueCoverPhoto` over the category priority
chain. -/
def searchCategories (used : List String) : List String → Option String
  | [] => none
  | cat :: cats =>
    match firstUnusedPhoto used (COVER_PHOTO_LIBRARY cat) with
    | some p => some p
    | none => searchCategories used cats

/-- The priority chain: requested category (normalized), then `nyc`, then
`real-estate`. -/
def chainCategories (category : String) : List String :=
  [normalizeCategory category, "nyc", "real-estate"]

/-- All photos of the priority chain in search order. -/
def chainPhotos (category : String) : List String :=
  ((chainCategories category).map COVER_PHOTO_LIBRARY).flatten

/-- `Object.values(COVER_PHOTO_LIBRARY).flat().filter(not blocked)` — the
candidate pool of the all-buckets-exhausted fallback. -/
def nonBlockedLibraryPhotos : List String :=
  ((LIBRARY_KEYS.map COVER_PHOTO_LIBRARY).flatten).filter
    (fun p => !(BLOCKED_PHOTO_IDS.contains p))

/-- The photo id selected by `BlogRegistry.getUniqueCoverPhoto`.  The
`Math.random()` draw of the exhausted-fallback branch is modelled by the
`rand` parameter taken modulo the pool size. -/
def getUniqueCoverPhotoId (used : List String) (category : String) (rand : Nat) :
    Option String :=
  match searchCategories used (chainCategories category) with
  | some p => some p
  | none => nonBlockedLibraryPhotos[rand % nonBlockedLibraryPhotos.length]?

/-- `BlogRegistry.getUniqueCoverPhoto`: the selected id wrapped in the
Unsplash URL. -/
def getUniqueCoverPhotoUrl (used : List String) (category : String) (rand : Nat) :
    Option String :=
  (getUniqueCoverPhotoId used category rand).map
    (fun photoId =>
      "https://images.unsplash.com/" ++ photoId ++ "?w=1200&auto=format&fit=crop")

/-- `getUniqueCoverPhoto` as a method on the registry state: the body
reads `this.data.usedCoverPhotos` and never writes `this.data`, so the
state component of the result is the input state. -/
def getUniqueCoverPhotoM (st : BlogRegistryData) (category : String) (rand : Nat) :
    Option String × BlogRegistryData :=
  (getUniqueCoverPhotoUrl st.usedCoverPhotos category rand, st)

/-- Character class of the photo-id extraction regex. -/
def photoIdChar (c : Char) : Bool :=
  c.isAlpha || c.isDigit || c = '_' || c = '-'

/-- Leftmost match of the photo-id regex: the literal `photo-` followed by
at least one id character, extended greedily. -/
def extractPhotoId : List Char → Option String
  | [] => none
  | c :: rest =>
    if (c :: rest).take 6 = "photo-".data then
      let run := ((c :: rest).drop 6).takeWhile photoIdChar
      if run.isEmpty then extractPhotoId rest
      else some (String.mk ("photo-".data ++ run))
    else extractPhotoId rest

/-- `BlogRegistry.reserveCoverPhoto`: extract the photo id from the URL
and add it to the used set unless already present (or unmatched). -/
def reserveCoverPhoto (st : BlogRegistryData) (photoUrl : String) :
    BlogRegistryData :=
  match extractPhotoId photoUrl.data with
  | none => st
  | some photoId =>
    if st.usedCoverPhotos.contains photoId then st
    else { st with usedCoverPhotos := st.usedCoverPhotos ++ [photoId] }

/-! ## Concrete fixtures used by witnesses and counterexamples -/

/-- A brief whose insight does not occur in the tested candidate text. -/
def briefZ : ContentBrief :=
  { topic := "t", targetKeyword := "k", secondaryKeywords := []
    searchIntent := .informational, audience := "a", contentAngle := "x"
    differentiators := [], dataPoints := [], uniqueInsight := "zzzz"
    contentLength := .long }

def emptyRegistry : BlogRegistryData := { publishedBlogs := [], usedCoverPhotos := [] }

def blogA : NewBlog :=
  { slug := "a", neighborhood := "N", state := "NY"
    publishedAt := "2025-01-01", coverPhotoId := "photo-b" }

/-- A registry holding one Harlem, Manhattan, NY document. -/
def regHarlem : BlogRegistryData :=
  { publishedBlogs :=
      [{ slug := "harlem-manhattan-geographic-farming-guide"
         neighborhood := "Harlem", borough := "Manhattan", state := "NY"
         publishedAt := "2025-01-01", coverPhotoId := "photo-x", source := .seo }]
    usedCoverPhotos := ["photo-x"] }

/-- A 500-character LLM response. -/
def longResponse : String := String.mk (List.replicate 500 'a')

/-! ## Helper lemmas -/

theorem firstUnusedPhoto_eq_find? (used l) :
    firstUnusedPhoto used l = l.find? (photoAvailable used) := by
  induction l with
  | nil => rfl
  | cons p rest ih =>
    by_cases hb : p ∈ BLOCKED_PHOTO_IDS
    · simp [firstUnusedPhoto, photoAvailable, hb, List.find?, ih]
    · by_cases hu : p ∈ used <;>
        simp [firstUnusedPhoto, photoAvailable, hb, hu, List.find?, ih]

theorem searchCategories_eq_find? (used cats) :
    searchCategories used cats =
      ((cats.map COVER_PHOTO_LIBRARY).flatten).find? (photoAvailable used) := by
  induction cats with
  | nil => rfl
  | cons c cs ih =>
    simp only [searchCategories, firstUnusedPhoto_eq_find?, List.map_cons,
      List.flatten_cons, List.find?_append, ih]
    cases h : (COVER_PHOTO_LIBRARY c).find? (photoAvailable used) <;>
      simp [Option.or, h]

theorem photoAvailable_iff (used : List String) (p : String) :
    photoAvailable used p = true ↔ p ∉ BLOCKED_PHOTO_IDS ∧ p ∉ used := by
  simp [photoAvailable]

/-- When the priority chain holds a selectable photo, the bucket search
succeeds and returns exactly the first selectable chain entry. -/
theorem searchCategories_of_available (used : List String) (category q : String)
    (hq : q ∈ chainPhotos category) (hqb : q ∉ BLOCKED_PHOTO_IDS)
    (hqu : q ∉ used) :
    ∃ p, searchCategories used (chainCategories category) = some p ∧
      (chainPhotos category).find? (photoAvailable used) = some p ∧
      photoAvailable used p = true := by
  have hsearch := searchCategories_eq_find? used (chainCategories category)
  rcases hfq : (chainPhotos category).find? (photoAvailable used) with _ | p
  · exact absurd ((photoAvailable_iff used q).mpr ⟨hqb, hqu⟩)
      (by simpa using List.find?_eq_none.mp hfq q hq)
  · exact ⟨p, by rw [hsearch]; exact hfq, rfl, List.find?_some hfq⟩

/-! ## Claim theorems -/

/-- C1: the photo id selected by `getUniqueCoverPhoto` is never on the
permanent block-list, in every branch including the exhausted-buckets
random fallback; and whenever some photo of the priority chain (requested
category, then nyc, then real-estate) is neither used nor blocked, the
selected id is the first such chain entry and is not in the used set. -/
theorem getUniqueCoverPhoto_never_blocked_first_fit
    (used : List String) (category : String) (rand : Nat) :
    (∀ p, getUniqueCoverPhotoId used category rand = some p →
      p ∉ BLOCKED_PHOTO_IDS) ∧
    (∀ q ∈ chainPhotos category, q ∉ BLOCKED_PHOTO_IDS → q ∉ used →
      ∃ p, getUniqueCoverPhotoId used category rand = some p ∧
        (chainPhotos category).find? (photoAvailable used) = some p ∧
        p ∉ used) := by
  constructor
  · intro p hp
    unfold getUniqueCoverPhotoId at hp
    rcases h : searchCategories used (chainCategories category) with _ | q
    · rw [h] at hp
      have hm : p ∈ nonBlockedLibraryPhotos := List.getElem?_mem hp
      have := (List.mem_filter.mp hm).2
      simpa using this
    · rw [h] at hp
      have hqp : q = p := Option.some.inj hp
      have hfind : (chainPhotos category).find? (photoAvailable used) = some q := by
        have h2 := searchCategories_eq_find? used (chainCategories category)
        rw [h] at h2
        exact h2.symm
      rw [← hqp]
      exact ((photoAvailable_iff used q).mp (List.find?_some hfind)).1
  · intro q hq hqb hqu
    obtain ⟨p, hsearch, hfind, hpa⟩ :=
      searchCategories_of_available used category q hq hqb hqu
    refine ⟨p, ?_, hfind, ((photoAvailable_iff used p).mp hpa).2⟩
    unfold getUniqueCoverPhotoId
    rw [hsearch]

/-- C1 witness: on an empty used set and category nyc, the selected photo
is the first chain entry and is unused. -/
theorem getUniqueCoverPhoto_never_blocked_first_fit_witness :
    ∃ p, getUniqueCoverPhotoId [] "nyc" 0 = some p ∧
      (chainPhotos "nyc").find? (photoAvailable []) = some p ∧
      p ∉ ([] : List String) :=
  (getUniqueCoverPhoto_never_blocked_first_fit [] "nyc" 0).2
    "photo-1534430480872-3498386e7856" (by decide) (by decide) (by decide)

/-- C2 counterexample: an input normalizing to exactly 4 meaningful tokens
yields no phrase at all — not the single 4-token window the claim
requires (the loop bound `i < words.length - 4` drops the last window). -/
theorem extractKeyPhrases_four_tokens_counterexample :
    (extractWords "alpha beta gamma delta").length = 4 ∧
    extractKeyPhrases "alpha beta gamma delta" = [] ∧
    (extractKeyPhrases "alpha beta gamma delta").length ≠
      (extractWords "alpha beta gamma delta").length - 3 := by
  decide

/-- C2 (amended): the extractor returns exactly the 4-token windows at
offsets `0 .. n - 5` (that is, `max (n - 4) 0` phrases, one fewer than all
windows; 4 or fewer meaningful tokens yield the empty sequence), each
window joined by single spaces in order of occurrence, and the extraction
is deterministic. -/
theorem extractKeyPhrases_windows (content : String) (i : Nat) :
    (extractKeyPhrases content).length = (extractWords content).length - 4 ∧
    (extractKeyPhrases content)[i]? =
      (if i < (extractWords content).length - 4 then
        some (String.intercalate " " (((extractWords content).drop i).take 4))
      else none) ∧
    extractKeyPhrases content = extractKeyPhrases content := by
  refine ⟨by simp [extractKeyPhrases], ?_, rfl⟩
  by_cases h : i < (extractWords content).length - 4
  · simp [extractKeyPhrases, List.getElem?_map, List.getElem?_range h, h]
  · have hnone : (List.range ((extractWords content).length - 4))[i]? = none :=
      List.getElem?_eq_none (by simpa using Nat.le_of_not_lt h)
    simp [extractKeyPhrases, List.getElem?_map, hnone, h]

/-- C3 counterexample: in `ContentGenerator.evaluateDifferentiation` a
candidate that does not contain the insight's leading characters scores
`insightScore = 0`, not the `0.5` the claim requires (the 0.5 branch and
the 30-character probe exist only in the Ollama generator; this generator
probes 50 characters and scores 0 otherwise). -/
theorem cgInsightScore_counterexample :
    strContains (strLower "hello world") (strTake (strLower briefZ.uniqueInsight) 30)
      = false ∧
    (cgEvaluateDifferentiation [] [] "hello world" briefZ).insightScore = 0 ∧
    (cgEvaluateDifferentiation [] [] "hello world" briefZ).insightScore ≠ 1/2 := by
  refine ⟨by decide, by decide, ?_⟩
  have h : (cgEvaluateDifferentiation [] [] "hello world" briefZ).insightScore = 0 := by
    decide
  rw [h]
  norm_num

/-- C3 (amended): both differentiation evaluators compute
`angleScore = 1 - maxSimilarity` and
`dataScore = uniqueFactCount / max(|dataPoints|, 1)`; the Ollama evaluator
scores the insight 1 when the text contains the leading 30 characters of
the insight case-insensitively and 0.5 otherwise, while the Anthropic
`ContentGenerator` evaluator probes the leading 50 characters and scores 0
otherwise. -/
theorem evaluateDifferentiation_component_scores
    (existingContent contentFingerprints : List (String × List String))
    (content : String) (brief : ContentBrief) :
    ((cgEvaluateDifferentiation existingContent contentFingerprints content brief).angleScore
        = 1 - (cgCalculateOverallSimilarity existingContent content).1) ∧
    ((cgEvaluateDifferentiation existingContent contentFingerprints content brief).dataScore
        = ((cgEvaluateDifferentiation existingContent contentFingerprints content brief).uniqueFactCount : ℚ)
            / max (brief.dataPoints.length : ℚ) 1) ∧
    ((cgEvaluateDifferentiation existingContent contentFingerprints content brief).insightScore
        = if strContains (strLower content) (strTake (strLower brief.uniqueInsight) 50)
          then 1 else 0) ∧
    ((ollamaEvaluateDifferentiation existingContent content brief).angleScore
        = 1 - (ollamaCalculateOverallSimilarity existingContent content).1) ∧
    ((ollamaEvaluateDifferentiation existingContent content brief).dataScore
        = ((ollamaEvaluateDifferentiation existingContent content brief).uniqueFactCount : ℚ)
            / max (brief.dataPoints.length : ℚ) 1) ∧
    ((ollamaEvaluateDifferentiation existingContent content brief).insightScore
        = if strContains (strLower content) (strTake (strLower brief.uniqueInsight) 30)
          then 1 else 1/2) :=
  ⟨rfl, rfl, rfl, rfl, rfl, rfl⟩

/-- C4: with at least two history entries drawn from the fixed 6-template
set, `validateTemplateSelection` rejects each of the last two entries,
accepts every other template of the set, and reports exactly the last two
entries as excluded. -/
theorem validateTemplateSelection_rotation (recentHistory : List String)
    (_hlen : 2 ≤ recentHistory.length)
    (_hids : ∀ t ∈ recentHistory, t ∈ TEMPLATE_IDS) :
    (∀ e ∈ recentHistory.drop (recentHistory.length - 2),
      (validateTemplateSelection e recentHistory).valid = false) ∧
    (∀ t ∈ TEMPLATE_IDS, t ∉ recentHistory.drop (recentHistory.length - 2) →
      (validateTemplateSelection t recentHistory).valid = true) ∧
    (∀ c, (validateTemplateSelection c recentHistory).excluded =
      recentHistory.drop (recentHistory.length - 2)) := by
  refine ⟨?_, ?_, fun c => rfl⟩
  · intro e he
    simp only [validateTemplateSelection]
    simp [List.mem_filter, he]
  · intro t ht hnot
    simp only [validateTemplateSelection]
    simp [List.mem_filter, ht, hnot]

/-- C4 witness: Scenario D — history `[COMPASS, CATALYST]` rejects
`COMPASS`, accepts `ATLAS`, and excludes exactly the two history entries. -/
theorem validateTemplateSelection_rotation_witness :
    (validateTemplateSelection "COMPASS" ["COMPASS", "CATALYST"]).valid = false ∧
    (validateTemplateSelection "ATLAS" ["COMPASS", "CATALYST"]).valid = true ∧
    (validateTemplateSelection "ATLAS" ["COMPASS", "CATALYST"]).excluded =
      ["COMPASS", "CATALYST"] :=
  ⟨(validateTemplateSelection_rotation ["COMPASS", "CATALYST"] (by decide)
      (by decide)).1 "COMPASS" (by decide),
   (validateTemplateSelection_rotation ["COMPASS", "CATALYST"] (by decide)
      (by decide)).2.1 "ATLAS" (by decide) (by decide),
   (validateTemplateSelection_rotation ["COMPASS", "CATALYST"] (by decide)
      (by decide)).2.2 "ATLAS"⟩

/-! ### C5 — registerBlog / hasSlug -/

theorem hasSlug_iff (st : BlogRegistryData) (v : String) :
    hasSlug st v = true ↔
      ∃ b ∈ st.publishedBlogs, normalizeSlug b.slug = normalizeSlug v := by
  simp [hasSlug]

theorem registerBlog_publishedBlogs_of_hasSlug (st : BlogRegistryData)
    (b : NewBlog) (h : hasSlug st b.slug = true) :
    (registerBlog st b).publishedBlogs = st.publishedBlogs := by
  simp [registerBlog, h]

/-- C5: after `registerBlog` with slug `s`, `hasSlug` holds for `s` and for
every variant with the same slug normalization; registering a document
with the same slug again leaves `publishedBlogs` unchanged; and a
non-empty `coverPhotoId` ends up in `usedCoverPhotos` exactly once. -/
theorem registerBlog_idempotent_reserves (st : BlogRegistryData) (blog : NewBlog)
    (hnodup : st.usedCoverPhotos.Nodup) :
    hasSlug (registerBlog st blog) blog.slug = true ∧
    (∀ v, normalizeSlug v = normalizeSlug blog.slug →
      hasSlug (registerBlog st blog) v = true) ∧
    (∀ blog₂ : NewBlog, blog₂.slug = blog.slug →
      (registerBlog (registerBlog st blog) blog₂).publishedBlogs =
        (registerBlog st blog).publishedBlogs) ∧
    (blog.coverPhotoId ≠ "" →
      (registerBlog st blog).usedCoverPhotos.count blog.coverPhotoId = 1) := by
  have hvar : ∀ v, normalizeSlug v = normalizeSlug blog.slug →
      hasSlug (registerBlog st blog) v = true := by
    intro v hv
    by_cases h : hasSlug st blog.slug
    · obtain ⟨b, hb, hbeq⟩ := (hasSlug_iff st blog.slug).mp h
      refine (hasSlug_iff _ v).mpr ⟨b, ?_, by rw [hbeq, hv]⟩
      simp [registerBlog, h, hb]
    · refine (hasSlug_iff _ v).mpr
        ⟨{ slug := blog.slug, neighborhood := blog.neighborhood,
           borough := blog.borough, city := blog.city, state := blog.state,
           publishedAt := blog.publishedAt, coverPhotoId := blog.coverPhotoId,
           source := .seo }, ?_, ?_⟩
      · simp [registerBlog, h]
      · exact hv.symm
  have hself : hasSlug (registerBlog st blog) blog.slug = true := hvar blog.slug rfl
  refine ⟨hself, hvar, ?_, ?_⟩
  · intro blog₂ hs
    exact registerBlog_publishedBlogs_of_hasSlug _ blog₂ (by rw [hs]; exact hself)
  · intro hne
    by_cases hc : blog.coverPhotoId ∈ st.usedCoverPhotos
    · have h1 : (registerBlog st blog).usedCoverPhotos = st.usedCoverPhotos := by
        simp [registerBlog, hne, hc]
      rw [h1]
      exact List.count_eq_one_of_mem hnodup hc
    · have h1 : (registerBlog st blog).usedCoverPhotos =
          st.usedCoverPhotos ++ [blog.coverPhotoId] := by
        simp [registerBlog, hne, hc]
      rw [h1, List.count_append]
      rw [List.count_eq_zero.mpr hc]
      simp

/-- C5 witness: registering slug `a` with photo `photo-b` into an empty
registry. -/
theorem registerBlog_idempotent_reserves_witness :
    hasSlug (registerBlog emptyRegistry blogA) "a" = true ∧
    hasSlug (registerBlog emptyRegistry blogA) "A!" = true ∧
    (registerBlog (registerBlog emptyRegistry blogA) blogA).publishedBlogs =
      (registerBlog emptyRegistry blogA).publishedBlogs ∧
    (registerBlog emptyRegistry blogA).usedCoverPhotos.count "photo-b" = 1 :=
  ⟨(registerBlog_idempotent_reserves emptyRegistry blogA (by decide)).1,
   (registerBlog_idempotent_reserves emptyRegistry blogA (by decide)).2.1 "A!" (by decide),
   (registerBlog_idempotent_reserves emptyRegistry blogA (by decide)).2.2.1 blogA rfl,
   (registerBlog_idempotent_reserves emptyRegistry blogA (by decide)).2.2.2 (by decide)⟩

/-! ### C6 — hasNeighborhood -/

theorem neighborhoodMatches_eq_true_iff (nN nB nS : String) (blog : PublishedBlog) :
    neighborhoodMatches nN nB nS blog = true ↔
      normAlnum blog.neighborhood = nN ∧
      (nB ≠ "" → normAlnum blog.borough ≠ "" → normAlnum blog.borough = nB) ∧
      (nS ≠ "" → strLower blog.state ≠ "" → strLower blog.state = nS) := by
  unfold neighborhoodMatches
  dsimp only
  split_ifs with h1 h2 h3 <;> simp_all

/-- C6 counterexample: the implementation lower-cases but does not strip
the state/region, so a stored `NY` record does not match the query state
`N.Y.` even though both normalize to `ny` under the claim's normalization
(modelled by `hasNeighborhoodSpec`). -/
theorem hasNeighborhood_state_counterexample :
    hasNeighborhoodSpec regHarlem "Harlem" none (some "N.Y.") = true ∧
    hasNeighborhood regHarlem "Harlem" none (some "N.Y.") = false := by
  decide

/-- C6 (amended): `hasNeighborhood` returns true iff some stored blog
matches the query, where the neighborhood and qualifier are normalized by
lower-casing and stripping non-alphanumerics but the region is normalized
by lower-casing only; an omitted (or blank-normalizing) query
qualifier/region imposes no constraint, and a stored record with a blank
qualifier/region matches any supplied value. -/
theorem hasNeighborhood_iff (st : BlogRegistryData) (neighborhood : String)
    (borough state : Option String) :
    hasNeighborhood st neighborhood borough state = true ↔
      ∃ blog ∈ st.publishedBlogs,
        normAlnum blog.neighborhood = normAlnum neighborhood ∧
        ((borough.map normAlnum).getD "" ≠ "" → normAlnum blog.borough ≠ "" →
          normAlnum blog.borough = (borough.map normAlnum).getD "") ∧
        ((state.map strLower).getD "" ≠ "" → strLower blog.state ≠ "" →
          strLower blog.state = (state.map strLower).getD "") := by
  simp only [hasNeighborhood, List.any_eq_true, neighborhoodMatches_eq_true_iff]

/-- C6 witness: the stored Harlem record is found when borough and state
are supplied verbatim. -/
theorem hasNeighborhood_iff_witness :
    hasNeighborhood regHarlem "Harlem" (some "Manhattan") (some "NY") = true :=
  (hasNeighborhood_iff regHarlem "Harlem" (some "Manhattan") (some "NY")).mpr
    ⟨{ slug := "harlem-manhattan-geographic-farming-guide"
       neighborhood := "Harlem", borough := "Manhattan", state := "NY"
       publishedAt := "2025-01-01", coverPhotoId := "photo-x", source := .seo },
     by decide, by decide, by decide, by decide⟩

/-! ### C7 — score bounds -/

theorem cgCalculateSimilarity_bounds (existingContent : List (String × List String))
    (newContent existingSlug : String) :
    0 ≤ cgCalculateSimilarity existingContent newContent existingSlug ∧
      cgCalculateSimilarity existingContent newContent existingSlug ≤ 1 := by
  unfold cgCalculateSimilarity
  rcases existingContent.lookup existingSlug with _ | phrases
  · simp
  · simp only
    constructor
    · apply div_nonneg (by positivity) (by positivity)
    · apply div_le_one_of_le₀
      · calc
          ((((extractKeyPhrases newContent).dedup).filter
              (fun phrase => phrases.contains phrase)).length : ℚ)
              ≤ ((extractKeyPhrases newContent).dedup.length : ℚ) := by
                exact_mod_cast List.length_filter_le _ _
          _ ≤ max ((extractKeyPhrases newContent).dedup.length : ℚ) 1 :=
                le_max_left _ _
      · positivity

theorem cgCalculateOverallSimilarity_bounds
    (existingContent : List (String × List String)) (newContent : String) :
    0 ≤ (cgCalculateOverallSimilarity existingContent newContent).1 ∧
      (cgCalculateOverallSimilarity existingContent newContent).1 ≤ 1 := by
  unfold cgCalculateOverallSimilarity
  have main : ∀ (l : List (String × List String)) (acc : ℚ × String),
      0 ≤ acc.1 → acc.1 ≤ 1 →
      0 ≤ (l.foldl
        (fun acc entry =>
          let similarity := cgCalculateSimilarity existingContent newContent entry.1
          if acc.1 < similarity then (similarity, entry.1) else acc) acc).1 ∧
      (l.foldl
        (fun acc entry =>
          let similarity := cgCalculateSimilarity existingContent newContent entry.1
          if acc.1 < similarity then (similarity, entry.1) else acc) acc).1 ≤ 1 := by
    intro l
    induction l with
    | nil => intro acc h0 h1; exact ⟨h0, h1⟩
    | cons hd tl ih =>
      intro acc h0 h1
      simp only [List.foldl_cons]
      apply ih
      · split_ifs with h
        · exact (cgCalculateSimilarity_bounds existingContent newContent hd.1).1
        · exact h0
      · split_ifs with h
        · exact (cgCalculateSimilarity_bounds existingContent newContent hd.1).2
        · exact h1
  exact main existingContent (0, "") le_rfl zero_le_one

theorem jsMin_one_bounds (s : ℚ) (hs : 0 ≤ s) : 0 ≤ jsMin s 1 ∧ jsMin s 1 ≤ 1 := by
  unfold jsMin
  split_ifs with h
  · exact ⟨hs, h⟩
  · exact ⟨zero_le_one, le_rfl⟩

/-- C7: the differentiation `overallScore` is the stated weighted sum and
lies in `[0, 1]`, and the additive quality score lies in `[0, 1]` — never
negative and never above the cap even with every bonus triggered. -/
theorem overallScore_qualityScore_bounds
    (existingContent contentFingerprints : List (String × List String))
    (content : String) (brief : ContentBrief) :
    ((cgEvaluateDifferentiation existingContent contentFingerprints content brief).overallScore
      = (cgEvaluateDifferentiation existingContent contentFingerprints content brief).angleScore * (4/10)
        + (cgEvaluateDifferentiation existingContent contentFingerprints content brief).dataScore * (35/100)
        + (cgEvaluateDifferentiation existingContent contentFingerprints content brief).insightScore * (25/100)) ∧
    0 ≤ (cgEvaluateDifferentiation existingContent contentFingerprints content brief).overallScore ∧
    (cgEvaluateDifferentiation existingContent contentFingerprints content brief).overallScore ≤ 1 ∧
    0 ≤ ollamaEvaluateQuality content brief ∧
    ollamaEvaluateQuality content brief ≤ 1 := by
  have hsim := cgCalculateOverallSimilarity_bounds existingContent content
  have hAeq : (cgEvaluateDifferentiation existingContent contentFingerprints content brief).angleScore
      = 1 - (cgCalculateOverallSimilarity existingContent content).1 := rfl
  have hA : 0 ≤ (cgEvaluateDifferentiation existingContent contentFingerprints content brief).angleScore ∧
      (cgEvaluateDifferentiation existingContent contentFingerprints content brief).angleScore ≤ 1 := by
    rw [hAeq]
    constructor <;> linarith [hsim.1, hsim.2]
  have hDeq : (cgEvaluateDifferentiation existingContent contentFingerprints content brief).dataScore
      = ((brief.dataPoints.filter
          (fun dp => strContains (strLower content) (strTake (strLower dp.fact) 50))).length : ℚ)
        / max (brief.dataPoints.length : ℚ) 1 := rfl
  have hD : 0 ≤ (cgEvaluateDifferentiation existingContent contentFingerprints content brief).dataScore ∧
      (cgEvaluateDifferentiation existingContent contentFingerprints content brief).dataScore ≤ 1 := by
    rw [hDeq]
    constructor
    · apply div_nonneg (by positivity) (by positivity)
    · apply div_le_one_of_le₀
      · calc
          ((brief.dataPoints.filter
              (fun dp => strContains (strLower content) (strTake (strLower dp.fact) 50))).length : ℚ)
              ≤ (brief.dataPoints.length : ℚ) := by
                exact_mod_cast List.length_filter_le _ _
          _ ≤ max (brief.dataPoints.length : ℚ) 1 := le_max_left _ _
      · positivity
  have hIeq : (cgEvaluateDifferentiation existingContent contentFingerprints content brief).insightScore
      = if strContains (strLower content) (strTake (strLower brief.uniqueInsight) 50)
        then (1 : ℚ) else 0 := rfl
  have hI : 0 ≤ (cgEvaluateDifferentiation existingContent contentFingerprints content brief).insightScore ∧
      (cgEvaluateDifferentiation existingContent contentFingerprints content brief).insightScore ≤ 1 := by
    rw [hIeq]
    split_ifs <;> norm_num
  have hOeq : (cgEvaluateDifferentiation existingContent contentFingerprints content brief).overallScore
      = (cgEvaluateDifferentiation existingContent contentFingerprints content brief).angleScore * (4/10)
        + (cgEvaluateDifferentiation existingContent contentFingerprints content brief).dataScore * (35/100)
        + (cgEvaluateDifferentiation existingContent contentFingerprints content brief).insightScore * (25/100) := rfl
  have hquality : 0 ≤ ollamaEvaluateQuality content brief ∧
      ollamaEvaluateQuality content brief ≤ 1 := by
    simp only [ollamaEvaluateQuality]
    apply jsMin_one_bounds
    repeat' apply add_nonneg
    all_goals split_ifs <;> norm_num
  refine ⟨hOeq, ?_, ?_, hquality.1, hquality.2⟩
  · rw [hOeq]
    nlinarith [hA.1, hA.2, hD.1, hD.2, hI.1, hI.2]
  · rw [hOeq]
    nlinarith [hA.1, hA.2, hD.1, hD.2, hI.1, hI.2]

/-! ### C8 — angle exhaustion -/

theorem lookup_setAssoc (m : List (String × List String)) (k : String)
    (v : List String) : (setAssoc m k v).lookup k = some v := by
  induction m with
  | nil => simp [setAssoc]
  | cons kv rest ih =>
    obtain ⟨k₂, v₂⟩ := kv
    by_cases h : k₂ = k
    · simp [setAssoc, h, List.lookup]
    · have hbeq : (k == k₂) = false := beq_eq_false_iff_ne.mpr (Ne.symm h)
      simp [setAssoc, h, List.lookup, hbeq, ih]

theorem mem_registerAngle_self (m : List (String × List String))
    (topic a : String) :
    a ∈ (((registerAngle m topic a)).lookup topic).getD [] := by
  unfold registerAngle
  rw [lookup_setAssoc]
  simp only [Option.getD_some]
  by_cases h : a ∈ (m.lookup topic).getD []
  · simp [h]
  · simp [h]

theorem mem_registerAngle_mono (m : List (String × List String))
    (topic a b : String) (ha : a ∈ ((m.lookup topic).getD [])) :
    a ∈ (((registerAngle m topic b)).lookup topic).getD [] := by
  unfold registerAngle
  rw [lookup_setAssoc]
  simp only [Option.getD_some]
  by_cases h : b ∈ (m.lookup topic).getD [] <;> simp [h, ha]

theorem foldl_registerAngle_mono (topic : String) (l : List String)
    (m : List (String × List String)) (a : String)
    (ha : a ∈ ((m.lookup topic).getD [])) :
    a ∈ (((l.foldl (fun s x => registerAngle s topic x) m)).lookup topic).getD [] := by
  induction l generalizing m with
  | nil => exact ha
  | cons hd tl ih => exact ih _ (mem_registerAngle_mono m topic a hd ha)

theorem foldl_registerAngle_covers (topic : String) (l : List String)
    (m : List (String × List String)) (a : String) (ha : a ∈ l) :
    a ∈ (((l.foldl (fun s x => registerAngle s topic x) m)).lookup topic).getD [] := by
  induction l generalizing m with
  | nil => cases ha
  | cons hd tl ih =>
    rcases List.mem_cons.mp ha with rfl | hmem
    · exact foldl_registerAngle_mono topic tl _ a (mem_registerAngle_self m topic a)
    · exact ih _ hmem

/-- C8: after `registerAngle` has been called for every angle of the
intent's list for a topic, `getAvailableAngles` is empty, and
`generateBrief` for that topic fails immediately with the
angles-exhausted error instead of retrying. -/
theorem angles_exhausted (usedAngles : List (String × List String))
    (topic keyword audience : String) (intent : SearchIntent)
    (llmDifferentiators : List String) (llmDataPoints : List DataPoint)
    (llmInsight : String) :
    getAvailableAngles
      ((contentAnglesCG intent).foldl (fun s a => registerAngle s topic a) usedAngles)
      topic intent = [] ∧
    generateBrief
      ((contentAnglesCG intent).foldl (fun s a => registerAngle s topic a) usedAngles)
      topic keyword intent audience llmDifferentiators llmDataPoints llmInsight =
      .error ("All content angles exhausted for topic: " ++ topic ++
              ". Consider a new topic cluster.") := by
  have hempty : getAvailableAngles
      ((contentAnglesCG intent).foldl (fun s a => registerAngle s topic a) usedAngles)
      topic intent = [] := by
    unfold getAvailableAngles
    apply List.filter_eq_nil_iff.mpr
    intro a ha
    simp only [Bool.not_eq_eq_eq_not, Bool.not_true]
    simpa using foldl_registerAngle_covers topic (contentAnglesCG intent) usedAngles a ha
  refine ⟨hempty, ?_⟩
  unfold generateBrief
  rw [hempty]

/-! ### C9 — content-too-short guard -/

/-- The candidate content submitted to the minimum-length guard: the
parsed object's `content` field, or the raw response text when structured
extraction failed. -/
def candidateContent (response : String) (parsed : Option OllamaGeneratedData) :
    Option String :=
  match parsed with
  | some d => d.content
  | none => some response

/-- C9: `generateContent` raises the content-too-short error exactly when
the candidate content (parsed `content` field, or the raw-response
fallback after an extraction failure) is absent or shorter than 500
characters; it raises no other error, and an extraction failure whose
fallback is at least 500 characters long succeeds. -/
theorem generateContent_too_short_guard
    (existingContent : List (String × List String)) (brief : ContentBrief)
    (response : String) (parsed : Option OllamaGeneratedData) (model : String) :
    ((∃ e, ollamaGenerateContent existingContent brief response parsed model = .error e) ↔
      (candidateContent response parsed = none ∨
       ∃ c, candidateContent response parsed = some c ∧ c.length < 500)) ∧
    (∀ e, ollamaGenerateContent existingContent brief response parsed model = .error e →
      e = tooShortError) ∧
    (parsed = none → 500 ≤ response.length →
      ∃ r, ollamaGenerateContent existingContent brief response parsed model = .ok r ∧
        r.content = response) := by
  rcases parsed with _ | d
  · by_cases h : response.length < 500
    · refine ⟨?_, ?_, ?_⟩
      · simp [ollamaGenerateContent, ollamaFallbackData, candidateContent, h]
      · intro e he
        simp [ollamaGenerateContent, ollamaFallbackData, h] at he
        exact he.symm
      · intro _ h500
        exact absurd h500 (by omega)
    · refine ⟨?_, ?_, ?_⟩
      · simp [ollamaGenerateContent, ollamaFallbackData, candidateContent, h]
      · intro e he
        simp [ollamaGenerateContent, ollamaFallbackData, h] at he
      · intro _ _
        rcases hE : ollamaGenerateContent existingContent brief response none model
          with e | r
        · exact absurd hE (by simp [ollamaGenerateContent, ollamaFallbackData, h])
        · have hc : r.content = response := by
            simp [ollamaGenerateContent, ollamaFallbackData, h] at hE
            rw [← hE]
          exact ⟨r, rfl, hc⟩
  · rcases hd : d.content with _ | c
    · refine ⟨?_, ?_, ?_⟩
      · simp [ollamaGenerateContent, candidateContent, hd]
      · intro e he
        simp [ollamaGenerateContent, hd] at he
        exact he.symm
      · intro hcontra
        cases hcontra
    · by_cases h : c.length < 500
      · refine ⟨?_, ?_, ?_⟩
        · simp [ollamaGenerateContent, candidateContent, hd, h]
        · intro e he
          simp [ollamaGenerateContent, hd, h] at he
          exact he.symm
        · intro hcontra
          cases hcontra
      · refine ⟨?_, ?_, ?_⟩
        · simp [ollamaGenerateContent, candidateContent, hd, h]
        · intro e he
          simp [ollamaGenerateContent, hd, h] at he
        · intro hcontra
          cases hcontra

set_option maxRecDepth 4000 in
/-- C9 witness: extraction failure with a 500-character raw response is
recovered — the fallback artifact passes the guard and the raw text
becomes the content. -/
theorem generateContent_too_short_guard_witness :
    ∃ r, ollamaGenerateContent [] briefZ longResponse none "qwen" = .ok r ∧
      r.content = longResponse :=
  (generateContent_too_short_guard [] briefZ longResponse none "qwen").2.2 rfl
    (by decide)

/-! ### C10 — allocation does not mutate the registry -/

/-- C10: `getUniqueCoverPhoto` leaves the registry state unchanged; when
the priority chain holds an unused non-blocked photo, the returned URL
does not depend on the random draw (so two successive calls with no
intervening reservation return the same URL); and an explicit
`reserveCoverPhoto` of a fresh id is what appends it to the used set. -/
theorem getUniqueCoverPhoto_pure (st : BlogRegistryData) (category : String)
    (r₁ r₂ : Nat) :
    (getUniqueCoverPhotoM st category r₁).2 = st ∧
    ((∃ q ∈ chainPhotos category, q ∉ BLOCKED_PHOTO_IDS ∧ q ∉ st.usedCoverPhotos) →
      (getUniqueCoverPhotoM st category r₁).1 = (getUniqueCoverPhotoM st category r₂).1) ∧
    (∀ photoUrl photoId, extractPhotoId photoUrl.data = some photoId →
      photoId ∉ st.usedCoverPhotos →
      (reserveCoverPhoto st photoUrl).usedCoverPhotos =
        st.usedCoverPhotos ++ [photoId]) := by
  refine ⟨rfl, ?_, ?_⟩
  · rintro ⟨q, hq, hqb, hqu⟩
    obtain ⟨p, hsearch, -, -⟩ :=
      searchCategories_of_available st.usedCoverPhotos category q hq hqb hqu
    simp only [getUniqueCoverPhotoM, getUniqueCoverPhotoUrl, getUniqueCoverPhotoId,
      hsearch]
  · intro photoUrl photoId hex hmem
    simp only [reserveCoverPhoto, hex]
    rw [if_neg (by simpa using hmem)]

/-- C10 witness: two draws agree on a fresh registry, and reserving a
fresh id appends it. -/
theorem getUniqueCoverPhoto_pure_witness :
    (getUniqueCoverPhotoM emptyRegistry "nyc" 0).1 =
      (getUniqueCoverPhotoM emptyRegistry "nyc" 5).1 ∧
    (reserveCoverPhoto emptyRegistry
        "https://images.unsplash.com/photo-abc123?w=1200").usedCoverPhotos =
      emptyRegistry.usedCoverPhotos ++ ["photo-abc123"] :=
  ⟨(getUniqueCoverPhoto_pure emptyRegistry "nyc" 0 5).2.1
      ⟨"photo-1534430480872-3498386e7856", by decide, by decide, by decide⟩,
   (getUniqueCoverPhoto_pure emptyRegistry "nyc" 0 5).2.2
      "https://images.unsplash.com/photo-abc123?w=1200" "photo-abc123"
      (by decide) (by decide)⟩

end SeoPipeline
